import Mathlib

/-!
Verification of the react-nimble-store subscription-store core.

The development shallowly embeds the repository's core functions:
the shallow-equality utility (`shallowEqual`, `shallowEqualArray`,
`shallowEqualObject`), the store setters of the several `createStore`
iterations, the middleware `compose` helper, the selection-hook
notification step, the live-`Set` subscriber notification loop, and the
`StoreManager` registry.  JavaScript runtime values are modelled by
`JSVal`; object and array identity (the `===` operator on reference
types) is modelled by an explicit allocation tag carried by the `obj`,
`arr`, `func` and `sym` constructors.
-/

/-- Model of a JavaScript runtime value.  `nan` is the number `NaN`
(kept separate from `num` because `NaN === NaN` is false).  Reference
types (`arr`, `obj`, `func`, `sym`) carry an allocation tag `ref`; two
values of a reference type are `===`-equal exactly when their tags
coincide, which is how distinct allocations with equal contents are
told apart. -/
inductive JSVal : Type where
  | num  (n : Int)
  | nan
  | str  (s : String)
  | bool (b : Bool)
  | null
  | undefined
  | sym  (ref : Nat)
  | func (ref : Nat)
  | arr  (ref : Nat) (elems : List JSVal)
  | obj  (ref : Nat) (fields : List (String × JSVal))

/-- The JavaScript `typeof` operator (note `typeof null` is `"object"`). -/
def typeofJS : JSVal → String
  | .num _ => "number"
  | .nan => "number"
  | .str _ => "string"
  | .bool _ => "boolean"
  | .null => "object"
  | .undefined => "undefined"
  | .sym _ => "symbol"
  | .func _ => "function"
  | .arr _ _ => "object"
  | .obj _ _ => "object"

/-- JavaScript truthiness: the falsy values are `false`, `0`, `NaN`,
the empty string, `null` and `undefined`. -/
def jsFalsy : JSVal → Bool
  | .bool false => true
  | .num 0 => true
  | .nan => true
  | .str "" => true
  | .null => true
  | .undefined => true
  | _ => false

/-- The JavaScript strict-equality operator `===`: primitives compare by
value (`NaN` is equal to nothing, itself included), reference types by
allocation tag. -/
def jsStrictEq : JSVal → JSVal → Bool
  | .num a, .num b => a == b
  | .str a, .str b => a == b
  | .bool a, .bool b => a == b
  | .null, .null => true
  | .undefined, .undefined => true
  | .sym a, .sym b => a == b
  | .func a, .func b => a == b
  | .arr a _, .arr b _ => a == b
  | .obj a _, .obj b _ => a == b
  | _, _ => false

/-- First binding of a key in a field list (JavaScript objects cannot
hold duplicate keys, so on faithful inputs this is the only binding). -/
def lookupField (fields : List (String × JSVal)) (k : String) : Option JSVal :=
  (fields.find? (fun p => p.1 == k)).map (fun p => p.2)

/-- Property read `o[k]` on a plain object: a missing key reads as
`undefined`. -/
def getPropD (fields : List (String × JSVal)) (k : String) : JSVal :=
  (lookupField fields k).getD .undefined

/-- Property read on a `JSVal`; non-objects have no modelled properties. -/
def getPropJS : JSVal → String → JSVal
  | .obj _ fields, k => getPropD fields k
  | _, _ => .undefined

/-- `Reflect.ownKeys` of a plain object. -/
def ownKeysJS (fields : List (String × JSVal)) : List String :=
  fields.map (fun p => p.1)

/-- Embedding of `shallowEqualArray` (src/unnamed/part_003): same
reference, or same length and index-wise `===`. -/
def shallowEqualArray (a b : JSVal) : Bool :=
  match a, b with
  | .arr r1 e1, .arr r2 e2 =>
      r1 == r2 || (e1.length == e2.length && (e1.zip e2).all (fun p => jsStrictEq p.1 p.2))
  | _, _ => false

/-- Embedding of `shallowEqualObject` (src/unnamed/part_003): same
reference, or equally many own keys and, for every own key of the first
object, `===`-equal property reads (a key absent from the second object
reads as `undefined`).  `Reflect.ownKeys` throws on a non-object
argument, which the model renders as `none`. -/
def shallowEqualObject (a b : JSVal) : Option Bool :=
  match a, b with
  | .obj _ f1, .obj _ f2 =>
      let keys1 := ownKeysJS f1
      let keys2 := ownKeysJS f2
      if jsStrictEq a b then some true
      else some (keys1.length == keys2.length
        && keys1.all (fun key => jsStrictEq (getPropD f1 key) (getPropD f2 key)))
  | _, _ => none

/-- Embedding of `shallowEqual` (src/unnamed/part_003): values that are
both non-`"object"` per `typeof`, or of which one is falsy, compare by
`===`; an array and a non-array are unequal; two arrays go to
`shallowEqualArray`; the remaining cases go to `shallowEqualObject`.
`none` models a thrown `TypeError`. -/
def shallowEqual (a b : JSVal) : Option Bool :=
  if typeofJS a != "object" && typeofJS b != "object" then
    some (jsStrictEq a b)
  else if jsFalsy a || jsFalsy b then
    some (jsStrictEq a b)
  else
    let isArrayA := match a with | .arr _ _ => true | _ => false
    let isArrayB := match b with | .arr _ _ => true | _ => false
    if isArrayA != isArrayB then some false
    else if isArrayA && isArrayB then some (shallowEqualArray a b)
    else shallowEqualObject a b

/-- Contribution of a value to an object spread `{...v}`: objects
contribute their fields, arrays and strings contribute index-keyed
entries, every other value contributes nothing. -/
def spreadContrib : JSVal → List (String × JSVal)
  | .obj _ fields => fields
  | .arr _ elems => elems.enum.map (fun p => (toString p.1, p.2))
  | .str s => s.toList.enum.map (fun p => (toString p.1, .str (String.singleton p.2)))
  | _ => []

/-- Spread-merge of two field lists, as in an object literal
`{...a, ...b}`: keys of `a` keep their position but take `b`'s value
when `b` also has the key; keys only in `b` are appended after them in
`b`'s order (each consumed key is dropped from the remainder of `b`). -/
def overrideFields (base g : List (String × JSVal)) : List (String × JSVal) :=
  match base with
  | [] => g
  | p :: rest =>
      (match lookupField g p.1 with
       | some v => (p.1, v)
       | none => p)
      :: overrideFields rest (g.filter (fun q => !(q.1 == p.1)))

/-- The object literal `{...a, ...b}`.  The literal allocates a fresh
object; allocation tags of constructed objects are not tracked by the
model (they are set to `0`), since no verified claim applies `===` to a
post-update state. -/
def jsSpread2 (a b : JSVal) : JSVal :=
  .obj 0 (overrideFields (spreadContrib a) (spreadContrib b))

/-- Whether `structuredClone` accepts a value: it throws a
`DataCloneError` on functions and symbols, at any depth. -/
def cloneOK : JSVal → Bool
  | .func _ => false
  | .sym _ => false
  | .arr _ elems => elems.attach.all (fun p => cloneOK p.1)
  | .obj _ fields => fields.attach.all (fun p => cloneOK p.1.2)
  | _ => true
decreasing_by
  · have h := List.sizeOf_lt_of_mem p.2
    simp only [JSVal.arr.sizeOf_spec]
    omega
  · have h := List.sizeOf_lt_of_mem p.2
    have h2 : sizeOf p.1.2 < sizeOf p.1 := by
      obtain ⟨⟨k, v⟩, hp⟩ := p
      simp
    simp only [JSVal.obj.sizeOf_spec]
    omega

/-- Embedding of `structuredClone`: `none` models the thrown
`DataCloneError`.  The clone's fresh allocation tags are not modelled
(the clone is returned as the same value), since no verified claim
applies `===` to a cloned state. -/
def structuredCloneJS (v : JSVal) : Option JSVal :=
  if cloneOK v then some v else none

/-- Argument of a state setter: the function form carries the update
callback; every run-time value form is carried by `val`.  A function
passed as a plain value must be represented by `fnForm` (the `typeof`
dispatch in the setters treats it as the function form). -/
inductive SetArg : Type where
  | fnForm (f : JSVal → JSVal)
  | val (v : JSVal)

/-- The `typeof` dispatch performed by every setter variant. -/
def typeofArg : SetArg → String
  | .fnForm _ => "function"
  | .val v => typeofJS v

/-- Embedding of `baseSetState` of the `createStore` in src/src/lib/types.ts
(third iteration, lines 214-226) — the same update logic as the second
iteration's `setState` (lines 78-90): function results and object
arguments are spread-merged into the current state, any other argument
replaces the state.  Returns the new `stateRef.current`. -/
def baseSetState (cur : JSVal) : SetArg → JSVal
  | .fnForm f => jsSpread2 cur (f cur)
  | .val v =>
      if typeofJS v == "object" then jsSpread2 cur v
      else v

/-- Embedding of `setState` of the second `createStore` iteration in
src/src/lib/create-store.tsx (lines 127-139, same as src/unnamed/part_001
lines 51-63): a function result replaces the state outright
(`structuredClone(arg(state))`), an object argument is spread-merged,
anything else replaces; every branch passes through `structuredClone`. -/
def setState_v2 (cur : JSVal) : SetArg → Option JSVal
  | .fnForm f => structuredCloneJS (f cur)
  | .val v =>
      if typeofJS v == "object" then structuredCloneJS (jsSpread2 cur v)
      else structuredCloneJS v

/-- Embedding of `setState` of the third `createStore` iteration in
src/src/lib/create-store.tsx (lines 278-290): function results are
spread-merged into the current state before cloning. -/
def setState_v3 (cur : JSVal) : SetArg → Option JSVal
  | .fnForm f => structuredCloneJS (jsSpread2 cur (f cur))
  | .val v =>
      if typeofJS v == "object" then structuredCloneJS (jsSpread2 cur v)
      else structuredCloneJS v

/-- One `createStore` call of the third iteration
(src/src/lib/create-store.tsx lines 263-302, src/src/lib/types.ts lines
196-242) together with its mounted `Provider` instances.  The
`subscribers` set is created once in the `createStore` body, outside the
`Provider` component, so every mounted instance closes over the same
set; each mounted instance owns its own `stateRef`, which `instances`
records per mount index. -/
structure StoreWorld : Type where
  subscribers : List Nat
  instances : List JSVal

/-- `subscribe` reached through a given mounted instance: it adds the
callback to the single set created in the `createStore` body (the
instance index plays no role, because the closure captures the shared
`subscribers`). -/
def subscribeVia (w : StoreWorld) (_inst : Nat) (cb : Nat) : StoreWorld :=
  { w with subscribers :=
      if cb ∈ w.subscribers then w.subscribers else w.subscribers ++ [cb] }

/-- The unsubscribe closure returned by `subscribe`: `Set.delete`. -/
def unsubscribeVia (w : StoreWorld) (_inst : Nat) (cb : Nat) : StoreWorld :=
  { w with subscribers := w.subscribers.filter (fun c => c != cb) }

/-- `setState` dispatched through the mounted instance `inst`: the new
value of that instance's own `stateRef` is computed by `baseSetState`,
and then `subscribers.forEach((callback) => callback())` runs over the
shared set.  The second component records which subscriber callbacks the
call invokes. -/
def setStateVia (w : StoreWorld) (inst : Nat) (arg : SetArg) : StoreWorld × List Nat :=
  ({ w with instances :=
      w.instances.set inst (baseSetState (w.instances.getD inst .undefined) arg) },
   w.subscribers)

/-- A store setter as a state transformer: the argument plus the current
content of the state cell give the new content. -/
def StateSetter (σ ι : Type) : Type := ι → σ → σ

/-- The middleware shape of src/src/lib/types.ts (line 177): a function
of the raw setter and a state getter returning a replacement setter.
The getter type is kept abstract, as `compose` only passes it along. -/
def Middleware (σ ι γ : Type) : Type := StateSetter σ ι → γ → StateSetter σ ι

/-- Embedding of `compose` (src/src/lib/types.ts lines 348-353): every
middleware in the list receives the given setter and getter directly,
and the returned setter runs each resulting setter on the input in list
order (`chain.forEach((stateSetter) => stateSetter(input))`), threading
the mutable state cell through the invocations. -/
def compose {σ ι γ : Type} (fns : List (Middleware σ ι γ))
    (setState : StateSetter σ ι) (getState : γ) : StateSetter σ ι :=
  let chain := fns.map (fun middleware => middleware setState getState)
  fun input s => chain.foldl (fun cell stateSetter => stateSetter input cell) s

/-- Embedding of the final `setState` of src/src/lib/types.ts (lines
229-235): apply the store's middleware to the base setter if one was
given, then run the resulting setter on the input. -/
def setStateWithMiddleware {σ ι γ : Type} (middleware : Option (Middleware σ ι γ))
    (baseSetter : StateSetter σ ι) (getState : γ) : StateSetter σ ι :=
  fun input =>
    let finalSetState := match middleware with
      | some m => m baseSetter getState
      | none => baseSetter
    finalSetState input

/-- A middleware that just delegates to the setter it is given, like the
repository's `loggingMiddleware` minus the logging. -/
def delegateMw {σ ι γ : Type} : Middleware σ ι γ := fun setState _ => setState

/-- Embedding of the subscriber callback installed by `useStore`
(src/src/lib/create-store.tsx lines 332-339, src/src/lib/types.ts lines
260-267): on a store notification, recompute `selectorFn (getState())`
and call `setSelectedState` on it unless `predicateFn` reports it equal
to the retained `selectedState`.  The result is the retained projection
after the notification, paired with whether `setSelectedState` ran. -/
def hookNotify {S R : Type} (selectorFn : S → R) (predicateFn : R → R → Bool)
    (storeState : S) (selectedState : R) : R × Bool :=
  let newValue := selectorFn storeState
  if predicateFn newValue selectedState then (selectedState, false)
  else (newValue, true)

/-- The retained projection after a sequence of store notifications. -/
def hookRun {S R : Type} (selectorFn : S → R) (predicateFn : R → R → Bool)
    (notifications : List S) (selectedState : R) : R :=
  notifications.foldl
    (fun retained s => (hookNotify selectorFn predicateFn s retained).1) selectedState

/-- Embedding of the default-predicate wrapper (`predicateFn` in
src/src/lib/create-store.tsx lines 318-322, `usePredicate` in
src/src/lib/types.ts lines 322-330, `areEqual` in src/src/lib/hooks.ts
lines 28-32): use the caller's predicate when one is supplied, otherwise
the strict-equality operator. -/
def predicateFn (predicate : Option (JSVal → JSVal → Bool)) : JSVal → JSVal → Bool :=
  fun arg1 arg2 =>
    match predicate with
    | some p => p arg1 arg2
    | none => jsStrictEq arg1 arg2

/-- A mutation of the subscriber set performed by a subscriber callback
while a notification pass is running. -/
inductive SetOp : Type where
  | add (id : Nat)
  | del (id : Nat)

/-- Effect of one `Set` mutation during iteration, on the (visited,
upcoming) halves of the entry list.  `delete` tombstones the entry in
place; `add` appends a new entry at the end unless the value is already
present, matching the JavaScript `Set` insertion-order semantics. -/
def applySetOp (st : List (Option Nat) × List (Option Nat)) (op : SetOp) :
    List (Option Nat) × List (Option Nat) :=
  match op with
  | .del i => (st.1.map (fun e => if e = some i then none else e),
               st.2.map (fun e => if e = some i then none else e))
  | .add i => if some i ∈ st.1 ∨ some i ∈ st.2 then st else (st.1, st.2 ++ [some i])

/-- Embedding of `subscribers.forEach((callback) => callback())` over a
live JavaScript `Set`: entries are visited in insertion order, an entry
deleted before its visit is skipped (tombstoned), and an entry added
during the pass is visited in the same pass.  `eff` gives, for each
subscriber id, the set mutations its callback performs when invoked.
`fuel` bounds the number of visits (a callback that re-adds itself makes
the real loop diverge); the first component is the list of invoked
callbacks in order, the second the final entry list. -/
def notifyLoop (eff : Nat → List SetOp) :
    Nat → List (Option Nat) → List (Option Nat) → List Nat → List Nat × List (Option Nat)
  | 0, done, todo, log => (log.reverse, done ++ todo)
  | fuel + 1, done, todo, log =>
      match todo with
      | [] => (log.reverse, done)
      | .none :: rest => notifyLoop eff fuel (done ++ [.none]) rest log
      | .some i :: rest =>
          let st := (eff i).foldl applySetOp (done ++ [some i], rest)
          notifyLoop eff fuel st.1 st.2 (i :: log)

/-- The notification pass run by `setState` (src/src/lib/create-store.tsx
line 289): iterate the live subscriber set from its registered entries. -/
def notifySubscribers (subs : List Nat) (eff : Nat → List SetOp) (fuel : Nat) :
    List Nat × List (Option Nat) :=
  notifyLoop eff fuel [] (subs.map some) []

/-- Embedding of the `StoreManager` registry
(src/src/lib/models/store-manager.ts): an insertion-ordered map from
store id to a context reference (modelled as a number), plus the most
recently registered id. -/
structure StoreManager : Type where
  contextsMap : List (Nat × Nat)
  lastId : Option Nat

/-- `mapSize`: the number of registered entries. -/
def StoreManager.mapSize (m : StoreManager) : Nat :=
  m.contextsMap.length

/-- `contextsMap[id]` lookup. -/
def StoreManager.lookupContext (m : StoreManager) (id : Nat) : Option Nat :=
  (m.contextsMap.find? (fun p => p.1 == id)).map (fun p => p.2)

/-- `registerContext` (src/src/lib/models/store-manager.ts lines 15-20):
register only if no entry exists yet for the id, updating the
most-recent pointer on success. -/
def StoreManager.registerContext (m : StoreManager) (id ctx : Nat) : StoreManager :=
  if (m.lookupContext id).isSome then m
  else { contextsMap := m.contextsMap ++ [(id, ctx)], lastId := some id }

/-- The store id chosen by `createStore`
(src/src/lib/create-store.tsx line 30): `storeManager.mapSize + 1`,
computed at creation time; `createStore` itself does not touch the
registry (registration happens when a `Provider` first renders), so the
manager is returned unchanged. -/
def createStoreId (m : StoreManager) : Nat × StoreManager :=
  (m.mapSize + 1, m)

/-- The `count` property of a state object, read as an integer
(the projection used by the repository's counter examples). -/
def getCountJS (s : JSVal) : Int :=
  match getPropJS s "count" with
  | .num n => n
  | _ => 0

/-- The function-form `increment` update of the spec's end-to-end
scenario: set `count` to `count + 1`. -/
def incArg : SetArg := .fnForm (fun s => .obj 0 [("count", .num (getCountJS s + 1))])

/-- The raw store setter as a state transformer over the cell value. -/
def rawSetter : StateSetter JSVal SetArg := fun arg s => baseSetState s arg

/-! Helper lemmas about the spread-merge and the notification loop. -/

theorem lookupField_cons (p : String × JSVal) (l : List (String × JSVal)) (k : String) :
    lookupField (p :: l) k = if p.1 == k then some p.2 else lookupField l k := by
  unfold lookupField
  by_cases h : p.1 = k
  · rw [List.find?_cons_of_pos _ (by simp [h])]
    simp [h]
  · rw [List.find?_cons_of_neg _ (by simp [h])]
    simp [h]

theorem lookupField_filter_ne (g : List (String × JSVal)) (x k : String) (h : ¬k = x) :
    lookupField (g.filter (fun q => !(q.1 == x))) k = lookupField g k := by
  induction g with
  | nil => rfl
  | cons q rest ih =>
      by_cases hq : q.1 = x
      · simp only [List.filter_cons, hq, beq_self_eq_true, Bool.not_true, Bool.false_eq_true,
          if_false]
        rw [ih, lookupField_cons]
        have hqk : (q.1 == k) = false := by
          simp only [beq_eq_false_iff_ne, ne_eq]
          intro hkk
          exact h (by rw [← hkk, hq])
        rw [hqk]
        simp
      · have hqx : (!(q.1 == x)) = true := by simp [hq]
        simp only [List.filter_cons, hqx, if_true]
        rw [lookupField_cons, lookupField_cons, ih]

theorem lookupField_overrideFields (base g : List (String × JSVal)) (k : String) :
    lookupField (overrideFields base g) k = (lookupField g k).or (lookupField base k) := by
  induction base generalizing g with
  | nil =>
      show lookupField g k = (lookupField g k).or (lookupField [] k)
      cases lookupField g k <;> rfl
  | cons p rest ih =>
      show lookupField
          ((match lookupField g p.1 with
            | some v => (p.1, v)
            | none => p)
           :: overrideFields rest (g.filter (fun q => !(q.1 == p.1)))) k
        = (lookupField g k).or (lookupField (p :: rest) k)
      rw [lookupField_cons, lookupField_cons, ih]
      by_cases hk : p.1 = k
      · have hbeq : (p.1 == k) = true := by simp [hk]
        have hhead : ((match lookupField g p.1 with
            | some v => ((p.1, v) : String × JSVal)
            | none => p).1 == k) = true := by
          cases lookupField g p.1 <;> simpa using hbeq
        rw [hbeq, hhead]
        simp only [if_true]
        rw [hk]
        rcases hg : lookupField g k with _ | v <;> simp
      · have hbeq : (p.1 == k) = false := by simp [hk]
        have hhead : ((match lookupField g p.1 with
            | some v => ((p.1, v) : String × JSVal)
            | none => p).1 == k) = false := by
          cases lookupField g p.1 <;> simpa using hbeq
        rw [hbeq, hhead]
        simp only [Bool.false_eq_true, if_false]
        rw [lookupField_filter_ne g p.1 k (fun hkk => hk hkk.symm)]

theorem getPropD_overrideFields (base g : List (String × JSVal)) (k : String) :
    getPropD (overrideFields base g) k
      = match lookupField g k with
        | some v => v
        | none => getPropD base k := by
  unfold getPropD
  rw [lookupField_overrideFields]
  cases lookupField g k <;> cases lookupField base k <;> rfl

theorem notifyLoop_no_mutation (eff : Nat → List SetOp) (h : ∀ i, eff i = []) :
    ∀ (todo : List (Option Nat)) (fuel : Nat) (done : List (Option Nat)) (log : List Nat),
      todo.length ≤ fuel →
      notifyLoop eff fuel done todo log
        = (log.reverse ++ todo.filterMap id, done ++ todo) := by
  intro todo
  induction todo with
  | nil =>
      intro fuel done log _
      cases fuel <;> simp [notifyLoop]
  | cons e rest ih =>
      intro fuel done log hf
      cases fuel with
      | zero => simp at hf
      | succ n =>
          cases e with
          | none =>
              show notifyLoop eff n (done ++ [.none]) rest log = _
              rw [ih n _ _ (by simpa using Nat.le_of_succ_le_succ hf)]
              simp
          | some i =>
              show notifyLoop eff n
                  ((eff i).foldl applySetOp (done ++ [some i], rest)).1
                  ((eff i).foldl applySetOp (done ++ [some i], rest)).2
                  (i :: log) = _
              rw [h i]
              simp only [List.foldl_nil]
              rw [ih n _ _ (by simpa using Nat.le_of_succ_le_succ hf)]
              simp

/-! Claim theorems. -/

/-- C1 (amended): the state cells of mounted Provider instances are
per-instance — a `setState` dispatched through one instance leaves every
other instance's `stateRef` (hence its `getState()` result) unchanged.
The subscriber set, in contrast, is shared by all instances of one Store
definition (see the counterexample). -/
theorem state_cell_isolation (w : StoreWorld) (i j : Nat) (arg : SetArg) (hij : i ≠ j) :
    (setStateVia w i arg).1.instances[j]? = w.instances[j]? := by
  unfold setStateVia
  exact List.getElem?_set_ne hij

theorem state_cell_isolation_witness :
    (setStateVia ⟨[], [.obj 1 [("count", .num 0)], .obj 2 [("count", .num 0)]]⟩ 0
        incArg).1.instances[1]?
      = (⟨[], [.obj 1 [("count", .num 0)], .obj 2 [("count", .num 0)]]⟩ :
          StoreWorld).instances[1]? :=
  state_cell_isolation _ 0 1 incArg (by decide)

/-- C1 counterexample: the claim asserts that one instance's subscribe
operation does not affect another instance's subscriber set.  In the
code the `subscribers` set is created once per `createStore` call,
outside the `Provider` component, so a callback subscribed through
instance 0 is notified by a `setState` dispatched through instance 1:
with no subscriber registered through instance 1 itself, the dispatch
through instance 1 would invoke nobody if the sets were per-instance,
yet it invokes callback 7. -/
theorem shared_subscriber_set_cx :
    (setStateVia
        (subscribeVia ⟨[], [.obj 1 [("count", .num 0)], .obj 2 [("count", .num 0)]]⟩ 0 7)
        1 (.val (.obj 3 [("count", .num 1)]))).2 = [7]
    ∧ ([7] : List Nat) ≠ [] := by
  exact ⟨rfl, by decide⟩

theorem compose_cons {σ ι γ : Type} (m : Middleware σ ι γ) (fns : List (Middleware σ ι γ))
    (setState : StateSetter σ ι) (getState : γ) (input : ι) (s : σ) :
    compose (m :: fns) setState getState input s
      = compose fns setState getState input (m setState getState input s) := rfl

/-- C2 (amended): `compose` does not nest the middlewares; it applies
every middleware to the raw setter directly and runs the resulting
setters sequentially, first to last, over the evolving state cell.  With
`n` middlewares that each delegate once to the setter they received, one
dispatched update applies the raw setter `n` times (not once). -/
theorem compose_sequences_middlewares {σ ι γ : Type} (n : Nat)
    (setState : StateSetter σ ι) (getState : γ) (input : ι) (s : σ) :
    compose (List.replicate n delegateMw) setState getState input s
      = (fun cell => setState input cell)^[n] s := by
  induction n generalizing s with
  | zero => rfl
  | succ k ih =>
      rw [List.replicate_succ, compose_cons]
      show compose (List.replicate k delegateMw) setState getState input (setState input s) = _
      rw [ih, Function.iterate_succ_apply]

/-- C2 counterexample: a store built with the middleware list
`[a, b]` where both middlewares just delegate.  The claim requires the
raw setter to run exactly once per `setState` call, which on state
`{count: 0}` with the function-form increment would leave `count = 1`;
the composed setter leaves `count = 2`, because each middleware wraps
the raw setter separately and both delegations run. -/
theorem compose_double_raw_cx :
    getCountJS (setStateWithMiddleware (some (compose [delegateMw, delegateMw]))
        rawSetter () incArg (.obj 1 [("count", .num 0)])) = 2
    ∧ getCountJS (rawSetter incArg (.obj 1 [("count", .num 0)])) = 1
    ∧ (2 : Int) ≠ 1 := by
  exact ⟨rfl, rfl, by decide⟩

/-- C3: after a store notification the selection hook calls
`setSelectedState` (asking the consumer to re-render) exactly when the
predicate reports the freshly computed projection and the retained one
not equal; when the predicate reports them equal the retained value is
unchanged, and with a constant selector whose value the predicate
accepts, an arbitrary notification sequence never changes it. -/
theorem useStore_notify_iff {S R : Type} (selector : S → R) (pred : R → R → Bool)
    (s : S) (r : R) :
    ((hookNotify selector pred s r).2 = true ↔ pred (selector s) r = false)
    ∧ (pred (selector s) r = true → (hookNotify selector pred s r).1 = r)
    ∧ (∀ (c : R) (ss : List S), (∀ x, selector x = c) → pred c r = true →
        hookRun selector pred ss r = r) := by
  refine ⟨?_, ?_, ?_⟩
  · unfold hookNotify
    cases hp : pred (selector s) r <;> simp [hp]
  · intro hp
    unfold hookNotify
    simp [hp]
  · intro c ss hc hp
    induction ss with
    | nil => rfl
    | cons s0 rest ih =>
        show hookRun selector pred rest (hookNotify selector pred s0 r).1 = r
        have hstep : (hookNotify selector pred s0 r).1 = r := by
          unfold hookNotify
          simp [hc s0, hp]
        rw [hstep]
        exact ih

theorem useStore_notify_iff_witness :
    (hookNotify (fun n : Nat => n + 1) (fun a b => a == b) 3 4).1 = 4 :=
  (useStore_notify_iff (fun n : Nat => n + 1) (fun a b => a == b) 3 4).2.1 (by decide)

theorem all_attach {α : Type} (l : List α) (f : α → Bool) :
    (l.attach.all fun p => f p.1) = l.all f := by
  rw [Bool.eq_iff_iff]
  simp only [List.all_eq_true, List.mem_attach, true_implies, Subtype.forall]

theorem cloneOK_obj (r : Nat) (fields : List (String × JSVal)) :
    cloneOK (.obj r fields) = fields.all (fun p => cloneOK p.2) := by
  have h : cloneOK (.obj r fields) = fields.attach.all (fun p => cloneOK p.1.2) := by
    simp [cloneOK]
  rw [h]
  exact all_attach fields (fun p => cloneOK p.2)

theorem cloneOK_arr (r : Nat) (elems : List JSVal) :
    cloneOK (.arr r elems) = elems.all cloneOK := by
  have h : cloneOK (.arr r elems) = elems.attach.all (fun p => cloneOK p.1) := by
    simp [cloneOK]
  rw [h]
  exact all_attach elems cloneOK

theorem cloneOK_num (n : Int) : cloneOK (.num n) = true := by
  simp [cloneOK]

/-- C4 (amended): in the third `createStore` iteration
(src/src/lib/create-store.tsx lines 278-290) a function-form update `f`
on an object state `s` succeeds whenever the merged object is
structured-cloneable, and the new state is the shallow merge of `s` with
`f s` over top-level keys: a key of `f s` reads its `f s` value, any
other key reads its old value from `s`.  In the second iteration (lines
127-139) the function form instead replaces the state with `f s`
outright — see the counterexample. -/
theorem setState_v3_function_merge (rc : Nat) (fc : List (String × JSVal))
    (f : JSVal → JSVal) (rf : Nat) (ff : List (String × JSVal))
    (hf : f (.obj rc fc) = .obj rf ff)
    (hc : cloneOK (jsSpread2 (.obj rc fc) (.obj rf ff)) = true) (k : String) :
    (setState_v3 (.obj rc fc) (.fnForm f)).map (fun t => getPropJS t k)
      = some (match lookupField ff k with
          | some v => v
          | none => getPropD fc k) := by
  show (structuredCloneJS (jsSpread2 (.obj rc fc) (f (.obj rc fc)))).map
      (fun t => getPropJS t k) = _
  rw [hf]
  unfold structuredCloneJS
  rw [hc]
  simp only [if_true, Option.map_some]
  show some (getPropD (overrideFields fc ff) k) = _
  rw [getPropD_overrideFields]

theorem setState_v3_function_merge_witness :
    (setState_v3 (.obj 1 [("a", .num 1), ("b", .num 2)])
        (.fnForm (fun _ => .obj 2 [("a", .num 5)]))).map (fun t => getPropJS t "b")
      = some (.num 2) := by
  have h := setState_v3_function_merge 1 [("a", .num 1), ("b", .num 2)]
    (fun _ => .obj 2 [("a", .num 5)]) 2 [("a", .num 5)] rfl
    (by simp [jsSpread2, overrideFields, spreadContrib, lookupField, cloneOK_obj,
      cloneOK_num]) "b"
  simpa using h

/-- C4 counterexample: the second `createStore` iteration merges
object-form updates but fully replaces on function-form updates, so the
claim's merge contract fails there: on state `{a: 1, b: 2}` with a
function-form update returning `{a: 5}` the resulting state loses `b`
(it reads `undefined`), while the claimed shallow merge keeps `b = 2`. -/
theorem setState_v2_function_replace_cx :
    setState_v2 (.obj 1 [("a", .num 1), ("b", .num 2)])
        (.fnForm (fun _ => .obj 2 [("a", .num 5)])) = some (.obj 2 [("a", .num 5)])
    ∧ getPropJS (.obj 2 [("a", .num 5)]) "b" = .undefined
    ∧ getPropJS (jsSpread2 (.obj 1 [("a", .num 1), ("b", .num 2)]) (.obj 2 [("a", .num 5)])) "b"
        = .num 2
    ∧ JSVal.undefined ≠ JSVal.num 2 := by
  refine ⟨?_, rfl, rfl, fun h => JSVal.noConfusion h⟩
  show structuredCloneJS (.obj 2 [("a", .num 5)]) = some (.obj 2 [("a", .num 5)])
  unfold structuredCloneJS
  rw [show cloneOK (.obj 2 [("a", .num 5)]) = true from by simp [cloneOK_obj, cloneOK_num]]
  rfl

/-- C5 (amended): for an update argument that is neither a function nor
an object per `typeof` and is structured-cloneable, the second
iteration's `setState` replaces the state cell with that argument and
does not throw.  A symbol argument, although neither a function nor an
object, makes `structuredClone` throw a `DataCloneError` instead — see
the counterexample. -/
theorem setState_v2_primitive_replace (cur v : JSVal)
    (h1 : typeofJS v ≠ "function") (h2 : typeofJS v ≠ "object")
    (h3 : cloneOK v = true) :
    setState_v2 cur (.val v) = some v := by
  show (if typeofJS v == "object" then structuredCloneJS (jsSpread2 cur v)
    else structuredCloneJS v) = some v
  rw [show (typeofJS v == "object") = false from by simp [h2]]
  simp only [Bool.false_eq_true, if_false]
  unfold structuredCloneJS
  rw [h3]
  rfl

theorem setState_v2_primitive_replace_witness :
    setState_v2 (.obj 5 [("a", .num 1)]) (.val (.num 42)) = some (.num 42) :=
  setState_v2_primitive_replace _ _ (by decide) (by decide) (cloneOK_num 42)

/-- C5 counterexample: a symbol is neither a function nor an object, so
the claim requires `setState` to replace the state with it without
error; the code instead reaches `structuredClone(arg)` which throws a
`DataCloneError` (modelled as `none`). -/
theorem setState_v2_symbol_throws_cx :
    setState_v2 (.obj 1 [("count", .num 0)]) (.val (.sym 0)) = none := by
  simp [setState_v2, typeofJS, structuredCloneJS, cloneOK]

/-- C6 (amended): `setState` notifies by iterating the live subscriber
set, not a defensive copy.  When no callback mutates the set during the
pass, every currently-registered subscriber is invoked exactly once, in
insertion order, and the set is unchanged; but a subscriber added from
inside a callback is invoked in the same pass (see the
counterexample), so mutation during notification does change which
subscribers are invoked for that update. -/
theorem notify_no_mutation (subs : List Nat) (eff : Nat → List SetOp)
    (h : ∀ i, eff i = []) :
    notifySubscribers subs eff subs.length = (subs, subs.map some) := by
  unfold notifySubscribers
  rw [notifyLoop_no_mutation eff h (subs.map some) subs.length [] [] (by simp)]
  simp

theorem notify_no_mutation_witness :
    notifySubscribers [3, 5] (fun _ => []) 2 = ([3, 5], [some 3, some 5]) :=
  notify_no_mutation [3, 5] (fun _ => []) (fun _ => rfl)

/-- C6 counterexample: subscriber 1's callback subscribes callback 2
during the notification.  Under the claim (defensive copy), the update
would invoke only the subscribers registered when `setState` ran,
namely `[1]`; iterating the live `Set`, the pass invokes `[1, 2]`. -/
theorem notify_live_set_cx :
    (notifySubscribers [1] (fun i => if i = 1 then [SetOp.add 2] else []) 3).1 = [1, 2]
    ∧ ([1, 2] : List Nat) ≠ [1] := by
  exact ⟨rfl, by decide⟩

/-- C7 (amended): for two reference-distinct plain objects,
`shallowEqual` returns true iff they have equally many own keys and
every own key of the first reads a `===`-equal value off both (a key
missing from the second object reads as `undefined`).  Identical key
sets are not required: `{a: undefined}` and `{b: undefined}` compare
equal (see the counterexample).  Same-reference objects compare equal
unconditionally. -/
theorem shallowEqual_object_iff (r1 r2 : Nat) (f1 f2 : List (String × JSVal))
    (h : r1 ≠ r2) :
    shallowEqual (.obj r1 f1) (.obj r2 f2) = some true ↔
      ((ownKeysJS f1).length = (ownKeysJS f2).length
        ∧ ∀ k ∈ ownKeysJS f1, jsStrictEq (getPropD f1 k) (getPropD f2 k) = true) := by
  show shallowEqualObject (.obj r1 f1) (.obj r2 f2) = some true ↔ _
  unfold shallowEqualObject
  rw [show jsStrictEq (.obj r1 f1) (.obj r2 f2) = false from by simp [jsStrictEq, h]]
  simp [List.all_eq_true]

theorem shallowEqual_object_iff_witness :
    shallowEqual (.obj 1 [("a", .num 3)]) (.obj 2 [("a", .num 3)]) = some true :=
  (shallowEqual_object_iff 1 2 [("a", .num 3)] [("a", .num 3)] (by decide)).mpr
    (by constructor
        · rfl
        · intro k hk
          simp only [ownKeysJS, List.map_cons, List.map_nil, List.mem_singleton] at hk
          rw [hk]
          rfl)

/-- C7 counterexample: `shallowEqualObject` compares key counts and the
first object's keys only, reading missing keys as `undefined`, so the
reference-distinct objects `{a: undefined}` and `{b: undefined}` compare
equal although their key sets differ — the claimed iff fails in the
only-if direction. -/
theorem shallowEqualObject_undefined_keys_cx :
    shallowEqual (.obj 1 [("a", .undefined)]) (.obj 2 [("b", .undefined)]) = some true
    ∧ "a" ∈ ownKeysJS [("a", JSVal.undefined)]
    ∧ "a" ∉ ownKeysJS [("b", JSVal.undefined)] := by
  refine ⟨rfl, by simp [ownKeysJS], by simp [ownKeysJS]⟩

/-- C8 (amended): `shallowEqual x x` is true for every value `x` other
than `NaN`; for `x = NaN` both arguments are non-objects, the comparison
falls through to `NaN === NaN`, and the result is false (see the
counterexample). -/
theorem shallowEqual_refl_non_nan (x : JSVal) (h : x ≠ .nan) :
    shallowEqual x x = some true := by
  cases x with
  | nan => exact absurd rfl h
  | num n => simp [shallowEqual, typeofJS, jsStrictEq]
  | str a => simp [shallowEqual, typeofJS, jsStrictEq]
  | bool b => simp [shallowEqual, typeofJS, jsStrictEq]
  | null => simp [shallowEqual, typeofJS, jsFalsy, jsStrictEq]
  | undefined => simp [shallowEqual, typeofJS, jsStrictEq]
  | sym r => simp [shallowEqual, typeofJS, jsStrictEq]
  | func r => simp [shallowEqual, typeofJS, jsStrictEq]
  | arr r elems => simp [shallowEqual, typeofJS, jsFalsy, shallowEqualArray]
  | obj r fields => simp [shallowEqual, typeofJS, jsFalsy, shallowEqualObject, jsStrictEq]

theorem shallowEqual_refl_non_nan_witness :
    shallowEqual (.obj 3 [("a", .num 1)]) (.obj 3 [("a", .num 1)]) = some true :=
  shallowEqual_refl_non_nan _ (fun h => JSVal.noConfusion h)

/-- C8 counterexample: reflexivity fails at `x = NaN`, because
`typeof NaN` is `"number"` on both sides and `NaN === NaN` is false. -/
theorem shallowEqual_nan_cx : shallowEqual .nan .nan = some false := rfl

/-- C9: the failing scenario evaluated on the code.  `createStore`
computes its id as `storeManager.mapSize + 1` without touching the
registry, so two stores created before any `Provider` mounts both get
id 1; once both Providers mount, the idempotent `registerContext` keeps
the first context, and looking up the second store's id yields the first
store's context. -/
theorem duplicate_store_ids :
    (createStoreId ⟨[], none⟩).1 = 1
    ∧ (createStoreId (createStoreId ⟨[], none⟩).2).1 = 1
    ∧ ((StoreManager.registerContext
          (StoreManager.registerContext ⟨[], none⟩ 1 100) 1 200).lookupContext 1
        = some 100)
    ∧ (100 : Nat) ≠ 200 := by
  refine ⟨rfl, rfl, rfl, by decide⟩

/-- C10: when no predicate argument is supplied, every hook variant's
default comparison is exactly the strict-equality operator; two
structurally equal but reference-distinct projections are therefore
treated as changed, although the shallow-equality utility would report
them equal — so `shallowEqual` is not the default predicate. -/
theorem default_predicate_strict_eq :
    (∀ a b : JSVal, predicateFn none a b = jsStrictEq a b)
    ∧ predicateFn none (.obj 1 [("a", .num 1)]) (.obj 2 [("a", .num 1)]) = false
    ∧ shallowEqual (.obj 1 [("a", .num 1)]) (.obj 2 [("a", .num 1)]) = some true := by
  exact ⟨fun a b => rfl, rfl, rfl⟩

